import Mathlib

/-!
Verification of the PDF triage / force-OCR / archive-walker core of the
document-processing service (src/main.py), as a shallow embedding.

Conventions of the embedding:
* A PDF document is `Except String (List PdfPage)`: opening either fails with a
  message (the exception raised by the PDF library) or yields the list of pages.
* A `PdfPage` carries the page's native text (the string produced by
  page.get_text, with None coalesced to the empty string), whether
  page.get_images returned a non-empty list, and the outcome of running the OCR
  engine on the rendered page (`.error` models a raised exception, `.ok none`
  models a None return, `.ok (some s)` a returned string).
* Python str.strip / str.lower / str.endswith / str.startswith are modelled by
  the pyStrip / pyLower / strEndsWith / strStartsWith functions below, which
  operate on the string's character sequence as Python does; len is
  String.length, string truthiness is comparison with the empty string.
* Machine byte buffers are lists of naturals.
-/

/-- Python str.strip(): drop leading and trailing whitespace from the
character sequence. -/
def pyStrip (s : String) : String :=
  ⟨(((s.data.dropWhile Char.isWhitespace).reverse).dropWhile Char.isWhitespace).reverse⟩

/-- Python str.lower() (ASCII case folding, which covers the extensions and
signatures the code compares against). -/
def pyLower (s : String) : String := ⟨s.data.map Char.toLower⟩

/-- Python str.endswith, over the character sequence. -/
def strEndsWith (s suffix : String) : Bool := suffix.data.isSuffixOf s.data

/-- Python str.startswith, over the character sequence. -/
def strStartsWith (s pre : String) : Bool := pre.data.isPrefixOf s.data

/-- One page of an opened PDF, as seen by the triage / force-OCR passes. -/
structure PdfPage where
  /-- The native text layer: models (page.get_text("text") or ""). -/
  native_text : String
  /-- Whether page.get_images() returned a non-empty list. -/
  has_images : Bool
  /-- Outcome of pytesseract.image_to_string on the rendered page:
      `.error` = raised exception, `.ok none` = returned None. -/
  ocr : Except String (Option String)

/-- The threshold configuration read from the environment in src/main.py
(PAGE_TEXT_THRESHOLD, OCR_PAGE_CHAR_THRESHOLD, OCR_MAX_PAGES_TO_CHECK). -/
structure TriageConfig where
  page_text_threshold : Nat
  ocr_page_char_threshold : Nat
  ocr_max_pages_to_check : Nat
deriving DecidableEq, Repr

/-- Defaults: PAGE_TEXT_THRESHOLD=50, OCR_PAGE_CHAR_THRESHOLD=15,
OCR_MAX_PAGES_TO_CHECK=10. -/
def defaultConfig : TriageConfig := ⟨50, 15, 10⟩

/-- quick_ocr_on_image (src/main.py lines 210-215): returns the engine's text,
coalescing a None result to "" (the `or ""`), and swallowing any exception by
returning "". -/
def quick_ocr_on_image (page : PdfPage) : String :=
  match page.ocr with
  | .ok (some s) => s
  | .ok none => ""
  | .error _ => ""

/-- The debug dictionary built by triage_pdf_fail_fast.  Optional fields model
keys that are only added on some paths.  On the document-open-failure path the
Python code returns a fresh dict holding only the "error" key; that path is
modelled with zeroed counters and the error field set. -/
structure TriageDebug where
  pages_scanned : Nat
  pages_ocr_checked : Nat
  images_detected : Nat
  total_pages : Nat
  reason : Option String
  pages_with_images : Option (List Nat)
  error : Option String
deriving DecidableEq, Repr

/-- The mutable loop state of triage_pdf_fail_fast. -/
structure TriageState where
  acc : List String
  scanned : Nat
  ocr_checked : Nat
  images_detected : Nat
  has_images : Bool
  pages_with_images : List Nat
deriving DecidableEq, Repr

/-- Loop state at entry of triage_pdf_fail_fast. -/
def initTriageState : TriageState := ⟨[], 0, 0, 0, false, []⟩

/-- The classification used at the two fail-fast exits (src/main.py lines
253-258 and 267-272): total_pages == 1 first, then has_images. -/
def classifyTriage (total_pages : Nat) (has_images : Bool) : String :=
  if total_pages == 1 then "single_page_pdf"
  else if has_images then "multipage_pdf_with_images"
  else "multipage_pdf_text_only"

/-- The classification at the loop-completion exit (src/main.py lines 279-288):
has_images first, then total_pages == 1 in each branch. -/
def finalClassify (total_pages : Nat) (has_images : Bool) : String :=
  if has_images then
    if total_pages == 1 then "single_page_pdf" else "multipage_pdf_with_images"
  else
    if total_pages == 1 then "single_page_pdf" else "multipage_pdf_text_only"

/-- Start of each loop iteration (src/main.py lines 231-238): increment
pages_scanned; if the page has embedded images, set has_images, append the
index to pages_with_images and increment images_detected. -/
def recordPage (st : TriageState) (i : Nat) (page : PdfPage) : TriageState :=
  let st := { st with scanned := st.scanned + 1 }
  if page.has_images then
    { st with has_images := true,
              pages_with_images := st.pages_with_images ++ [i],
              images_detected := st.images_detected + 1 }
  else st

/-- The debug dictionary as returned at the exits of the triage loop. -/
def mkTriageDebug (st : TriageState) (total_pages : Nat) (reason : Option String) :
    TriageDebug :=
  { pages_scanned := st.scanned
    pages_ocr_checked := st.ocr_checked
    images_detected := st.images_detected
    total_pages := total_pages
    reason := reason
    pages_with_images := some st.pages_with_images
    error := none }

/-- The page loop of triage_pdf_fail_fast (src/main.py lines 230-288):
`pages` are the pages not yet visited, `i` the index of the first of them,
`st` the accumulated loop state. -/
def triage_go (cfg : TriageConfig) (total_pages : Nat) :
    List PdfPage → Nat → TriageState → String × String × TriageDebug
  | [], _, st =>
      (finalClassify total_pages st.has_images,
       String.intercalate "\n\n" st.acc,
       mkTriageDebug st total_pages none)
  | page :: rest, i, st =>
      let st1 := recordPage st i page
      let page_text := pyStrip page.native_text
      if page_text.length < cfg.page_text_threshold then
        if st1.ocr_checked < cfg.ocr_max_pages_to_check then
          let st2 := { st1 with ocr_checked := st1.ocr_checked + 1 }
          let text_from_image := quick_ocr_on_image page
          if cfg.ocr_page_char_threshold < (pyStrip text_from_image).length then
            (classifyTriage total_pages st2.has_images, "",
             mkTriageDebug st2 total_pages
               (some ("page_" ++ toString i ++ "_ocr_chars_found")))
          else
            triage_go cfg total_pages rest (i + 1)
              (if text_from_image ≠ "" then
                { st2 with acc := st2.acc ++ [text_from_image] }
               else st2)
        else
          (classifyTriage total_pages st1.has_images, "",
           mkTriageDebug st1 total_pages
             (some ("page_" ++ toString i ++ "_low_text_ocr_limit_exceeded")))
      else
        triage_go cfg total_pages rest (i + 1)
          { st1 with acc := st1.acc ++ [page_text] }

/-- triage_pdf_fail_fast (src/main.py lines 217-291).  The document argument is
the outcome of fitz.open: failure hits the outer except and returns
("error", "", dict with only the error message). -/
def triage_pdf_fail_fast (cfg : TriageConfig)
    (doc : Except String (List PdfPage)) : String × String × TriageDebug :=
  match doc with
  | .error e => ("error", "", ⟨0, 0, 0, 0, none, none, some e⟩)
  | .ok pages => triage_go cfg pages.length pages 0 initTriageState

/-- Debug info of process_pdf_force_ocr.  As with triage, the open-failure path
returns a dict holding only the error message; modelled with zeroed counters. -/
structure ForceDebug where
  pages_scanned : Nat
  pages_ocr_applied : Nat
  total_pages : Nat
  error : Option String
deriving DecidableEq, Repr

/-- The page loop of process_pdf_force_ocr (src/main.py lines 171-191),
returning (accumulated_text, pages_scanned, pages_ocr_applied). -/
def force_go (cfg : TriageConfig) :
    List PdfPage → List String → Nat → Nat → List String × Nat × Nat
  | [], acc, scanned, applied => (acc, scanned, applied)
  | page :: rest, acc, scanned, applied =>
      let scanned := scanned + 1
      let page_text := pyStrip page.native_text
      if page_text.length < cfg.page_text_threshold then
        let applied := applied + 1
        let text_from_image := quick_ocr_on_image page
        let acc :=
          if text_from_image ≠ "" then acc ++ [text_from_image]
          else if page_text ≠ "" then acc ++ [page_text]
          else acc
        force_go cfg rest acc scanned applied
      else
        force_go cfg rest (acc ++ [page_text]) scanned applied

/-- process_pdf_force_ocr (src/main.py lines 155-203). -/
def process_pdf_force_ocr (cfg : TriageConfig)
    (doc : Except String (List PdfPage)) : String × String × ForceDebug :=
  match doc with
  | .error e => ("error", "", ⟨0, 0, 0, some e⟩)
  | .ok pages =>
      let r := force_go cfg pages [] 0 0
      let final_text := String.intercalate "\n\n" r.1
      let debug : ForceDebug := ⟨r.2.1, r.2.2, pages.length, none⟩
      if pyStrip final_text ≠ "" then ("processed", final_text, debug)
      else ("ocr_failed", "", debug)

/-- The contribution of one page to the accumulator of process_pdf_force_ocr:
native text if long enough, else the OCR text, else the (non-empty) native
text, else nothing. -/
def forcePageTexts (cfg : TriageConfig) (page : PdfPage) : List String :=
  let page_text := pyStrip page.native_text
  if page_text.length < cfg.page_text_threshold then
    let text_from_image := quick_ocr_on_image page
    if text_from_image ≠ "" then [text_from_image]
    else if page_text ≠ "" then [page_text]
    else []
  else [page_text]

/-- Number of pages whose native text falls below the threshold (the pages the
force pass applies OCR to). -/
def countLowText (cfg : TriageConfig) (pages : List PdfPage) : Nat :=
  (pages.filter
    (fun p => decide ((pyStrip p.native_text).length < cfg.page_text_threshold))).length

/-- A byte buffer, as the sequence of its byte values. -/
abbrev Bytes := List Nat

/-- ZIP local-file-header signature PK\x03\x04. -/
def zipSig34 : Bytes := [80, 75, 3, 4]

/-- ZIP end-of-central-directory signature PK\x05\x06. -/
def zipSig56 : Bytes := [80, 75, 5, 6]

/-- RAR signature Rar!\x1a\x07. -/
def rarSig : Bytes := [82, 97, 114, 33, 26, 7]

/-- is_archive_file (src/main.py lines 295-328).  The .zip branch runs a
content validation whose outcome is discarded: every path of that branch
returns (True, 'zip'), so the branch is collapsed here.  Python's `if
contents:` treats None and the empty buffer alike; sniffing an empty buffer
matches no signature, so the two cases coincide below as in the code. -/
def is_archive_file (filename : String) (contents : Option Bytes) : Bool × String :=
  let lower_name := pyLower filename
  if strEndsWith lower_name ".zip" then (true, "zip")
  else if strEndsWith lower_name ".rar" then (true, "rar")
  else
    match contents with
    | some c =>
        if zipSig34.isPrefixOf c || zipSig56.isPrefixOf c then (true, "zip")
        else if rarSig.isPrefixOf c then (true, "rar")
        else (false, "")
    | none => (false, "")

/-- One listed member of an opened container: its name, directory flag and
size from the listing, and the outcome of archive.read(filename) on it
(`.error` models the exception caught by the per-entry handler). -/
structure RawEntry where
  filename : String
  is_dir : Bool
  file_size : Nat
  read_result : Except String Bytes

/-- The container-reading capability: opening a byte buffer of the given
archive type ('zip' via zipfile.ZipFile, 'rar' via rarfile.RarFile through a
scoped temporary file) either raises (`.error`, caught by the outer handler)
or yields the member listing. -/
structure ArchiveEnv where
  openArchive : String → Bytes → Except String (List RawEntry)

/-- One dictionary appended to extracted_files by extract_archive_recursive.
Optional fields model keys absent from some of the dict literals. -/
structure ExtractedFile where
  filename : String
  path_in_archive : Option String
  size : Option Nat
  contents : Option Bytes
  status : String
  error : Option String
deriving DecidableEq, Repr

/-- os.path.basename (POSIX): everything after the last slash. -/
def basename (p : String) : String :=
  ⟨p.data.foldl (fun acc c => if c = '/' then [] else acc ++ [c]) []⟩

/-- os.path.join (POSIX, two arguments): an absolute second component
discards the first; otherwise the parts are joined with a slash unless the
first already ends in one. -/
def ospath_join (a b : String) : String :=
  if strStartsWith b "/" then b
  else if a = "" || strEndsWith a "/" then a ++ b
  else a ++ "/" ++ b

/-- The path given to an entry (src/main.py lines 359 and 407):
os.path.join(current_path, filename) if current_path else filename. -/
def entryPath (current_path name : String) : String :=
  if current_path = "" then name else ospath_join current_path name

/-- The single dictionary returned when the recursion-depth guard fires
(src/main.py lines 343-348).  Note the filename is current_path itself; this
exit has no "root" fallback and no path_in_archive or size keys. -/
def depthErrorEntry (maxDepth : Nat) (current_path : String) : ExtractedFile :=
  { filename := current_path
    path_in_archive := none
    size := none
    contents := none
    status := "error"
    error := some ("Profundidade máxima de recursão atingida (" ++ toString maxDepth ++ ")") }

/-- The single dictionary appended when opening the container raises
(src/main.py lines 449-454): tagged current_path or "root". -/
def openErrorEntry (current_path msg : String) : ExtractedFile :=
  { filename := if current_path = "" then "root" else current_path
    path_in_archive := none
    size := none
    contents := none
    status := "error"
    error := some ("Erro ao extrair arquivo: " ++ msg) }

/-- The dictionary appended when reading one entry raises
(src/main.py lines 386-393). -/
def readErrorEntry (e : RawEntry) (file_path msg : String) : ExtractedFile :=
  { filename := basename e.filename
    path_in_archive := some file_path
    size := some e.file_size
    contents := none
    status := "error"
    error := some msg }

/-- The dictionary appended for a plain (non-archive) entry
(src/main.py lines 378-384). -/
def extractedEntry (e : RawEntry) (file_path : String) (b : Bytes) : ExtractedFile :=
  { filename := basename e.filename
    path_in_archive := some file_path
    size := some e.file_size
    contents := some b
    status := "extracted"
    error := none }

mutual

/-- extract_archive_recursive (src/main.py lines 330-456): depth guard,
then open the container (the 'zip' and 'rar' branches differ only in the
reader used, supplied by `env`; any other archive_type falls through both
branches and returns the empty accumulator), then walk the listing.  An open
failure is caught by the outer handler and becomes a single error entry. -/
def extract_archive_recursive (env : ArchiveEnv) (maxDepth : Nat) (contents : Bytes)
    (archive_type : String) (current_path : String) (depth : Nat) :
    List ExtractedFile :=
  if h : maxDepth < depth then [depthErrorEntry maxDepth current_path]
  else if archive_type = "zip" || archive_type = "rar" then
    match env.openArchive archive_type contents with
    | .error e => [openErrorEntry current_path e]
    | .ok entries => walkEntries env maxDepth current_path depth entries
  else []
termination_by (maxDepth + 1 - depth, 2, 0)

/-- The per-listing loop of extract_archive_recursive: each entry's flattened
block, in listing order. -/
def walkEntries (env : ArchiveEnv) (maxDepth : Nat) (current_path : String)
    (depth : Nat) : List RawEntry → List ExtractedFile
  | [] => []
  | e :: rest =>
      entryResult env maxDepth current_path depth e
        ++ walkEntries env maxDepth current_path depth rest
termination_by l => (maxDepth - depth, 4, l.length)

/-- The block of output produced for one listed entry (src/main.py lines
355-393): skip directories; on read failure append one error entry; recurse
into nested archives; otherwise append one extracted entry. -/
def entryResult (env : ArchiveEnv) (maxDepth : Nat) (current_path : String)
    (depth : Nat) (e : RawEntry) : List ExtractedFile :=
  if e.is_dir then []
  else
    let file_path := entryPath current_path e.filename
    match e.read_result with
    | .error msg => [readErrorEntry e file_path msg]
    | .ok b =>
        match is_archive_file e.filename (some b) with
        | (true, t) => extract_archive_recursive env maxDepth b t file_path (depth + 1)
        | (false, _) => [extractedEntry e file_path b]
termination_by (maxDepth - depth, 3, 0)

end

/-- The loop state after a page whose (stripped) native text meets the
threshold: the native text is appended to the accumulator. -/
def nextStateNative (st : TriageState) (i : Nat) (page : PdfPage) : TriageState :=
  ⟨(recordPage st i page).acc ++ [pyStrip page.native_text],
   (recordPage st i page).scanned,
   (recordPage st i page).ocr_checked,
   (recordPage st i page).images_detected,
   (recordPage st i page).has_images,
   (recordPage st i page).pages_with_images⟩

/-- The loop state right after the OCR sampling counter is bumped for a
low-text page. -/
def ocrBumped (st : TriageState) (i : Nat) (page : PdfPage) : TriageState :=
  ⟨(recordPage st i page).acc,
   (recordPage st i page).scanned,
   (recordPage st i page).ocr_checked + 1,
   (recordPage st i page).images_detected,
   (recordPage st i page).has_images,
   (recordPage st i page).pages_with_images⟩

/-- The loop state after a sampled page whose OCR text stays at or below the
character threshold: non-empty OCR text is appended to the accumulator. -/
def nextStateOcr (st : TriageState) (i : Nat) (page : PdfPage) : TriageState :=
  if quick_ocr_on_image page ≠ "" then
    ⟨(ocrBumped st i page).acc ++ [quick_ocr_on_image page],
     (ocrBumped st i page).scanned,
     (ocrBumped st i page).ocr_checked,
     (ocrBumped st i page).images_detected,
     (ocrBumped st i page).has_images,
     (ocrBumped st i page).pages_with_images⟩
  else ocrBumped st i page

/-- A two-level container environment: buffer [0] lists a nested archive
named inner.zip with bytes [1]; buffer [1] lists one text entry b.txt. -/
def nestEnv : ArchiveEnv :=
  ⟨fun _ c =>
    if c = [0] then .ok [⟨"inner.zip", false, 5, .ok [1]⟩]
    else if c = [1] then .ok [⟨"b.txt", false, 3, .ok [7, 7, 7]⟩]
    else .error "bad"⟩

/-- A container whose listing holds two identically named entries (legal in
the zip format: the central directory may repeat a name). -/
def dupEnv : ArchiveEnv :=
  ⟨fun _ c =>
    if c = [9] then
      .ok [⟨"a.txt", false, 2, .ok [104, 105]⟩, ⟨"a.txt", false, 2, .ok [104, 105]⟩]
    else .error "bad"⟩

/-! ## Helper lemmas about the triage loop -/

lemma recordPage_scanned (st : TriageState) (i : Nat) (p : PdfPage) :
    (recordPage st i p).scanned = st.scanned + 1 := by
  unfold recordPage; split <;> rfl

lemma recordPage_ocr_checked (st : TriageState) (i : Nat) (p : PdfPage) :
    (recordPage st i p).ocr_checked = st.ocr_checked := by
  unfold recordPage; split <;> rfl

lemma recordPage_has_images (st : TriageState) (i : Nat) (p : PdfPage) :
    (recordPage st i p).has_images = (st.has_images || p.has_images) := by
  unfold recordPage
  cases hp : p.has_images <;> simp [hp]

lemma nextStateNative_scanned (st : TriageState) (i : Nat) (p : PdfPage) :
    (nextStateNative st i p).scanned = st.scanned + 1 := by
  simp [nextStateNative, recordPage_scanned]

lemma nextStateNative_ocr_checked (st : TriageState) (i : Nat) (p : PdfPage) :
    (nextStateNative st i p).ocr_checked = st.ocr_checked := by
  simp [nextStateNative, recordPage_ocr_checked]

lemma nextStateNative_has_images (st : TriageState) (i : Nat) (p : PdfPage) :
    (nextStateNative st i p).has_images = (st.has_images || p.has_images) := by
  simp [nextStateNative, recordPage_has_images]

lemma nextStateOcr_scanned (st : TriageState) (i : Nat) (p : PdfPage) :
    (nextStateOcr st i p).scanned = st.scanned + 1 := by
  unfold nextStateOcr
  split <;> simp [ocrBumped, recordPage_scanned]

lemma nextStateOcr_ocr_checked (st : TriageState) (i : Nat) (p : PdfPage) :
    (nextStateOcr st i p).ocr_checked = st.ocr_checked + 1 := by
  unfold nextStateOcr
  split <;> simp [ocrBumped, recordPage_ocr_checked]

lemma nextStateOcr_has_images (st : TriageState) (i : Nat) (p : PdfPage) :
    (nextStateOcr st i p).has_images = (st.has_images || p.has_images) := by
  unfold nextStateOcr
  split <;> simp [ocrBumped, recordPage_has_images]

lemma finalClassify_eq (tp : Nat) (hi : Bool) :
    finalClassify tp hi = classifyTriage tp hi := by
  unfold finalClassify classifyTriage
  cases hi <;> split <;> simp_all

lemma classifyTriage_ne_error (tp : Nat) (hi : Bool) :
    classifyTriage tp hi ≠ "error" := by
  unfold classifyTriage
  split
  · decide
  · split <;> decide

lemma triage_go_nil (cfg : TriageConfig) (tp : Nat) (i : Nat) (st : TriageState) :
    triage_go cfg tp [] i st =
      (finalClassify tp st.has_images, String.intercalate "\n\n" st.acc,
       mkTriageDebug st tp none) := rfl

/-- Loop step: page with enough native text. -/
lemma triage_go_step_native (cfg : TriageConfig) (tp : Nat) (page : PdfPage)
    (rest : List PdfPage) (i : Nat) (st : TriageState)
    (h1 : ¬ (pyStrip page.native_text).length < cfg.page_text_threshold) :
    triage_go cfg tp (page :: rest) i st =
      triage_go cfg tp rest (i + 1) (nextStateNative st i page) := by
  simp [triage_go, h1, nextStateNative]

/-- Loop step: low-text page, OCR sampled, character threshold exceeded —
the fail-fast exit. -/
lemma triage_go_step_found (cfg : TriageConfig) (tp : Nat) (page : PdfPage)
    (rest : List PdfPage) (i : Nat) (st : TriageState)
    (h1 : (pyStrip page.native_text).length < cfg.page_text_threshold)
    (h2 : st.ocr_checked < cfg.ocr_max_pages_to_check)
    (h3 : cfg.ocr_page_char_threshold < (pyStrip (quick_ocr_on_image page)).length) :
    triage_go cfg tp (page :: rest) i st =
      (classifyTriage tp ((recordPage st i page).has_images), "",
       mkTriageDebug (ocrBumped st i page) tp
         (some ("page_" ++ toString i ++ "_ocr_chars_found"))) := by
  have h2' : (recordPage st i page).ocr_checked < cfg.ocr_max_pages_to_check := by
    rw [recordPage_ocr_checked]; exact h2
  simp [triage_go, h1, h2', h3, ocrBumped, mkTriageDebug]

/-- Loop step: low-text page, OCR sampled, threshold not exceeded —
continue with the bumped state. -/
lemma triage_go_step_ocr_cont (cfg : TriageConfig) (tp : Nat) (page : PdfPage)
    (rest : List PdfPage) (i : Nat) (st : TriageState)
    (h1 : (pyStrip page.native_text).length < cfg.page_text_threshold)
    (h2 : st.ocr_checked < cfg.ocr_max_pages_to_check)
    (h3 : ¬ cfg.ocr_page_char_threshold < (pyStrip (quick_ocr_on_image page)).length) :
    triage_go cfg tp (page :: rest) i st =
      triage_go cfg tp rest (i + 1) (nextStateOcr st i page) := by
  have h2' : (recordPage st i page).ocr_checked < cfg.ocr_max_pages_to_check := by
    rw [recordPage_ocr_checked]; exact h2
  by_cases h4 : quick_ocr_on_image page ≠ "" <;>
    simp [triage_go, h1, h2', h3, h4, nextStateOcr, ocrBumped]

/-- Loop step: low-text page with the sampling budget exhausted —
the fail-fast exit. -/
lemma triage_go_step_limit (cfg : TriageConfig) (tp : Nat) (page : PdfPage)
    (rest : List PdfPage) (i : Nat) (st : TriageState)
    (h1 : (pyStrip page.native_text).length < cfg.page_text_threshold)
    (h2 : ¬ st.ocr_checked < cfg.ocr_max_pages_to_check) :
    triage_go cfg tp (page :: rest) i st =
      (classifyTriage tp ((recordPage st i page).has_images), "",
       mkTriageDebug (recordPage st i page) tp
         (some ("page_" ++ toString i ++ "_low_text_ocr_limit_exceeded"))) := by
  have h2' : ¬ (recordPage st i page).ocr_checked < cfg.ocr_max_pages_to_check := by
    rw [recordPage_ocr_checked]; exact h2
  simp [triage_go, h1, h2', mkTriageDebug]

/-- Classification invariant of the triage loop: the loop consumes some
prefix of length k of the remaining pages, pages_scanned grows by k, and the
classification is the exit rule applied to total_pages and the image bit
accumulated over the pages seen. -/
lemma triage_go_class (cfg : TriageConfig) (tp : Nat) (pages : List PdfPage) :
    ∀ (i : Nat) (st : TriageState),
      ∃ k, k ≤ pages.length ∧
        (triage_go cfg tp pages i st).2.2.pages_scanned = st.scanned + k ∧
        (triage_go cfg tp pages i st).1 =
          classifyTriage tp
            (st.has_images || (pages.take k).any (fun p => p.has_images)) := by
  induction pages with
  | nil =>
      intro i st
      exact ⟨0, by simp [triage_go_nil, mkTriageDebug, finalClassify_eq]⟩
  | cons page rest ih =>
      intro i st
      by_cases h1 : (pyStrip page.native_text).length < cfg.page_text_threshold
      · by_cases h2 : st.ocr_checked < cfg.ocr_max_pages_to_check
        · by_cases h3 :
            cfg.ocr_page_char_threshold < (pyStrip (quick_ocr_on_image page)).length
          · refine ⟨1, by simp, ?_, ?_⟩
            · rw [triage_go_step_found cfg tp page rest i st h1 h2 h3]
              simp [mkTriageDebug, ocrBumped, recordPage_scanned]
            · rw [triage_go_step_found cfg tp page rest i st h1 h2 h3]
              simp [recordPage_has_images]
          · obtain ⟨k, hk, hsc, hcl⟩ := ih (i + 1) (nextStateOcr st i page)
            refine ⟨k + 1, by simpa using Nat.succ_le_succ hk, ?_, ?_⟩
            · rw [triage_go_step_ocr_cont cfg tp page rest i st h1 h2 h3, hsc,
                  nextStateOcr_scanned]
              omega
            · rw [triage_go_step_ocr_cont cfg tp page rest i st h1 h2 h3, hcl,
                  nextStateOcr_has_images]
              simp [List.take_succ_cons, Bool.or_assoc]
        · refine ⟨1, by simp, ?_, ?_⟩
          · rw [triage_go_step_limit cfg tp page rest i st h1 h2]
            simp [mkTriageDebug, recordPage_scanned]
          · rw [triage_go_step_limit cfg tp page rest i st h1 h2]
            simp [recordPage_has_images]
      · obtain ⟨k, hk, hsc, hcl⟩ := ih (i + 1) (nextStateNative st i page)
        refine ⟨k + 1, by simpa using Nat.succ_le_succ hk, ?_, ?_⟩
        · rw [triage_go_step_native cfg tp page rest i st h1, hsc,
              nextStateNative_scanned]
          omega
        · rw [triage_go_step_native cfg tp page rest i st h1, hcl,
              nextStateNative_has_images]
          simp [List.take_succ_cons, Bool.or_assoc]

/-- The OCR sampling counter never passes the budget. -/
lemma triage_go_ocr_le (cfg : TriageConfig) (tp : Nat) (pages : List PdfPage) :
    ∀ (i : Nat) (st : TriageState),
      st.ocr_checked ≤ cfg.ocr_max_pages_to_check →
      (triage_go cfg tp pages i st).2.2.pages_ocr_checked ≤
        cfg.ocr_max_pages_to_check := by
  induction pages with
  | nil =>
      intro i st h
      simpa [triage_go_nil, mkTriageDebug] using h
  | cons page rest ih =>
      intro i st h
      by_cases h1 : (pyStrip page.native_text).length < cfg.page_text_threshold
      · by_cases h2 : st.ocr_checked < cfg.ocr_max_pages_to_check
        · by_cases h3 :
            cfg.ocr_page_char_threshold < (pyStrip (quick_ocr_on_image page)).length
          · rw [triage_go_step_found cfg tp page rest i st h1 h2 h3]
            simp [mkTriageDebug, ocrBumped, recordPage_ocr_checked]
            omega
          · rw [triage_go_step_ocr_cont cfg tp page rest i st h1 h2 h3]
            apply ih
            rw [nextStateOcr_ocr_checked]
            omega
        · rw [triage_go_step_limit cfg tp page rest i st h1 h2]
          simpa [mkTriageDebug, recordPage_ocr_checked] using h
      · rw [triage_go_step_native cfg tp page rest i st h1]
        apply ih
        rw [nextStateNative_ocr_checked]
        exact h

/-! ## Helper lemmas about the force-OCR pass -/

/-- The force-OCR loop visits every page and accumulates exactly the per-page
contributions, in order. -/
lemma force_go_spec (cfg : TriageConfig) (pages : List PdfPage) :
    ∀ (acc : List String) (s a : Nat),
      force_go cfg pages acc s a =
        (acc ++ pages.flatMap (forcePageTexts cfg), s + pages.length,
         a + countLowText cfg pages) := by
  induction pages with
  | nil =>
      intro acc s a
      simp [force_go, countLowText]
  | cons p rest ih =>
      intro acc s a
      by_cases h1 : (pyStrip p.native_text).length < cfg.page_text_threshold
      · by_cases h4 : quick_ocr_on_image p ≠ ""
        · simp [force_go, h1, h4, ih, forcePageTexts, countLowText,
                List.filter_cons, List.append_assoc]
          omega
        · by_cases h5 : pyStrip p.native_text ≠ ""
          · simp [force_go, h1, h4, h5, ih, forcePageTexts, countLowText,
                  List.filter_cons, List.append_assoc]
            omega
          · simp [force_go, h1, h4, h5, ih, forcePageTexts, countLowText,
                  List.filter_cons, List.append_assoc]
            omega
      · simp [force_go, h1, ih, forcePageTexts, countLowText,
              List.filter_cons, List.append_assoc]
        omega

/-- Full characterization of process_pdf_force_ocr on a document that opens. -/
lemma process_force_eq (cfg : TriageConfig) (pages : List PdfPage) :
    process_pdf_force_ocr cfg (.ok pages) =
      (if pyStrip (String.intercalate "\n\n" (pages.flatMap (forcePageTexts cfg))) ≠ "" then
        ("processed", String.intercalate "\n\n" (pages.flatMap (forcePageTexts cfg)),
         (⟨pages.length, countLowText cfg pages, pages.length, none⟩ : ForceDebug))
      else
        ("ocr_failed", "",
         (⟨pages.length, countLowText cfg pages, pages.length, none⟩ : ForceDebug))) := by
  simp only [process_pdf_force_ocr, force_go_spec cfg pages [] 0 0, List.nil_append,
             Nat.zero_add]

/-! ## Helper lemmas about the archive format detector -/

lemma strEndsWith_zip_of_rar (s : String) (hr : strEndsWith s ".rar" = true) :
    strEndsWith s ".zip" = false := by
  by_contra hz
  rw [Bool.not_eq_false] at hz
  simp only [strEndsWith] at hr hz
  have hr' := List.isSuffixOf_iff_suffix.mp hr
  have hz' := List.isSuffixOf_iff_suffix.mp hz
  rcases List.suffix_or_suffix_of_suffix hr' hz' with h | h <;>
    exact absurd h (by decide)

lemma zipSig34_false_of_rarSig (c : Bytes) (hr : rarSig.isPrefixOf c = true) :
    zipSig34.isPrefixOf c = false := by
  by_contra h
  rw [Bool.not_eq_false] at h
  have hr' := List.isPrefixOf_iff_prefix.mp hr
  have hz' := List.isPrefixOf_iff_prefix.mp h
  rcases List.prefix_or_prefix_of_prefix hr' hz' with h2 | h2 <;>
    exact absurd h2 (by decide)

lemma zipSig56_false_of_rarSig (c : Bytes) (hr : rarSig.isPrefixOf c = true) :
    zipSig56.isPrefixOf c = false := by
  by_contra h
  rw [Bool.not_eq_false] at h
  have hr' := List.isPrefixOf_iff_prefix.mp hr
  have hz' := List.isPrefixOf_iff_prefix.mp h
  rcases List.prefix_or_prefix_of_prefix hr' hz' with h2 | h2 <;>
    exact absurd h2 (by decide)

lemma is_archive_zip_ext (filename : String) (contents : Option Bytes)
    (h : strEndsWith (pyLower filename) ".zip" = true) :
    is_archive_file filename contents = (true, "zip") := by
  simp [is_archive_file, h]

lemma is_archive_rar_ext (filename : String) (contents : Option Bytes)
    (h : strEndsWith (pyLower filename) ".rar" = true) :
    is_archive_file filename contents = (true, "rar") := by
  have hz := strEndsWith_zip_of_rar _ h
  simp [is_archive_file, h, hz]

lemma is_archive_sig_zip (filename : String) (c : Bytes)
    (hz : strEndsWith (pyLower filename) ".zip" = false)
    (hr : strEndsWith (pyLower filename) ".rar" = false)
    (h : (zipSig34.isPrefixOf c || zipSig56.isPrefixOf c) = true) :
    is_archive_file filename (some c) = (true, "zip") := by
  simp only [is_archive_file, hz, hr, h, Bool.false_eq_true, if_false, if_true]

lemma is_archive_sig_rar (filename : String) (c : Bytes)
    (hz : strEndsWith (pyLower filename) ".zip" = false)
    (hr : strEndsWith (pyLower filename) ".rar" = false)
    (h : rarSig.isPrefixOf c = true) :
    is_archive_file filename (some c) = (true, "rar") := by
  have h34 := zipSig34_false_of_rarSig c h
  have h56 := zipSig56_false_of_rarSig c h
  simp [is_archive_file, hz, hr, h, h34, h56]

lemma is_archive_no_sig (filename : String) (c : Bytes)
    (hz : strEndsWith (pyLower filename) ".zip" = false)
    (hr : strEndsWith (pyLower filename) ".rar" = false)
    (h34 : zipSig34.isPrefixOf c = false) (h56 : zipSig56.isPrefixOf c = false)
    (hrs : rarSig.isPrefixOf c = false) :
    is_archive_file filename (some c) = (false, "") := by
  simp [is_archive_file, hz, hr, h34, h56, hrs]

lemma is_archive_no_contents (filename : String)
    (hz : strEndsWith (pyLower filename) ".zip" = false)
    (hr : strEndsWith (pyLower filename) ".rar" = false) :
    is_archive_file filename none = (false, "") := by
  simp [is_archive_file, hz, hr]

/-! ## Helper lemmas about the archive walker -/

lemma extract_depth_exceeded (env : ArchiveEnv) (maxDepth : Nat) (contents : Bytes)
    (archive_type current_path : String) (depth : Nat) (h : maxDepth < depth) :
    extract_archive_recursive env maxDepth contents archive_type current_path depth =
      [depthErrorEntry maxDepth current_path] := by
  rw [extract_archive_recursive]
  simp [h]

lemma extract_open_error (env : ArchiveEnv) (maxDepth : Nat) (contents : Bytes)
    (archive_type current_path : String) (depth : Nat) (msg : String)
    (h : ¬ maxDepth < depth)
    (ht : archive_type = "zip" ∨ archive_type = "rar")
    (he : env.openArchive archive_type contents = .error msg) :
    extract_archive_recursive env maxDepth contents archive_type current_path depth =
      [openErrorEntry current_path msg] := by
  rw [extract_archive_recursive]
  rcases ht with ht | ht <;> subst ht <;> simp [h, he]

lemma extract_opened (env : ArchiveEnv) (maxDepth : Nat) (contents : Bytes)
    (archive_type current_path : String) (depth : Nat) (entries : List RawEntry)
    (h : ¬ maxDepth < depth)
    (ht : archive_type = "zip" ∨ archive_type = "rar")
    (he : env.openArchive archive_type contents = .ok entries) :
    extract_archive_recursive env maxDepth contents archive_type current_path depth =
      walkEntries env maxDepth current_path depth entries := by
  rw [extract_archive_recursive]
  rcases ht with ht | ht <;> subst ht <;> simp [h, he]

lemma walkEntries_nil (env : ArchiveEnv) (maxDepth : Nat)
    (current_path : String) (depth : Nat) :
    walkEntries env maxDepth current_path depth [] = [] := by
  rw [walkEntries]

lemma walkEntries_cons (env : ArchiveEnv) (maxDepth : Nat)
    (current_path : String) (depth : Nat) (e : RawEntry) (rest : List RawEntry) :
    walkEntries env maxDepth current_path depth (e :: rest) =
      entryResult env maxDepth current_path depth e
        ++ walkEntries env maxDepth current_path depth rest := by
  rw [walkEntries]

/-- Pre-order shape of the walker output: the flattened block of each listed
entry, concatenated in listing order. -/
lemma walkEntries_eq_flatten (env : ArchiveEnv) (maxDepth : Nat)
    (current_path : String) (depth : Nat) (l : List RawEntry) :
    walkEntries env maxDepth current_path depth l =
      (l.map (entryResult env maxDepth current_path depth)).flatten := by
  induction l with
  | nil => simp [walkEntries_nil]
  | cons e rest ih => simp [walkEntries_cons, ih]

lemma entryResult_dir (env : ArchiveEnv) (maxDepth : Nat) (current_path : String)
    (depth : Nat) (e : RawEntry) (h : e.is_dir = true) :
    entryResult env maxDepth current_path depth e = [] := by
  rw [entryResult]
  simp [h]

lemma entryResult_read_error (env : ArchiveEnv) (maxDepth : Nat)
    (current_path : String) (depth : Nat) (e : RawEntry) (msg : String)
    (hd : e.is_dir = false) (hr : e.read_result = .error msg) :
    entryResult env maxDepth current_path depth e =
      [readErrorEntry e (entryPath current_path e.filename) msg] := by
  rw [entryResult]
  simp [hd, hr]

lemma entryResult_nested (env : ArchiveEnv) (maxDepth : Nat)
    (current_path : String) (depth : Nat) (e : RawEntry) (b : Bytes) (t : String)
    (hd : e.is_dir = false) (hb : e.read_result = .ok b)
    (ha : is_archive_file e.filename (some b) = (true, t)) :
    entryResult env maxDepth current_path depth e =
      extract_archive_recursive env maxDepth b t
        (entryPath current_path e.filename) (depth + 1) := by
  rw [entryResult]
  simp [hd, hb, ha]

lemma entryResult_plain (env : ArchiveEnv) (maxDepth : Nat)
    (current_path : String) (depth : Nat) (e : RawEntry) (b : Bytes)
    (hd : e.is_dir = false) (hb : e.read_result = .ok b)
    (ha : (is_archive_file e.filename (some b)).1 = false) :
    entryResult env maxDepth current_path depth e =
      [extractedEntry e (entryPath current_path e.filename) b] := by
  rw [entryResult]
  rcases hpair : is_archive_file e.filename (some b) with ⟨fst, snd⟩
  rw [hpair] at ha
  simp at ha
  simp [hd, hb, hpair, ha]

/-! ## Claims -/

/-- Claim C1: during triage, when a sampled page's OCR text (stripped) is
strictly longer than ocrCharThreshold, the loop stops at that page — the
result does not depend on the remaining pages — with empty returned text,
reason "page_i_ocr_chars_found", pages_scanned counting exactly through this
page, and the classification computed from the pages seen so far. -/
theorem c1_triage_ocr_found_fail_fast (cfg : TriageConfig) (tp : Nat)
    (page : PdfPage) (rest : List PdfPage) (i : Nat) (st : TriageState)
    (h1 : (pyStrip page.native_text).length < cfg.page_text_threshold)
    (h2 : st.ocr_checked < cfg.ocr_max_pages_to_check)
    (h3 : cfg.ocr_page_char_threshold < (pyStrip (quick_ocr_on_image page)).length) :
    (triage_go cfg tp (page :: rest) i st).2.1 = "" ∧
    (triage_go cfg tp (page :: rest) i st).2.2.reason =
      some ("page_" ++ toString i ++ "_ocr_chars_found") ∧
    (triage_go cfg tp (page :: rest) i st).2.2.pages_scanned = st.scanned + 1 ∧
    (triage_go cfg tp (page :: rest) i st).1 =
      classifyTriage tp (st.has_images || page.has_images) ∧
    (∀ rest', triage_go cfg tp (page :: rest') i st =
      triage_go cfg tp (page :: rest) i st) := by
  have e := triage_go_step_found cfg tp page rest i st h1 h2 h3
  refine ⟨?_, ?_, ?_, ?_, ?_⟩
  · rw [e]
  · rw [e]; simp [mkTriageDebug]
  · rw [e]; simp [mkTriageDebug, ocrBumped, recordPage_scanned]
  · rw [e]; simp [recordPage_has_images]
  · intro rest'
    rw [e, triage_go_step_found cfg tp page rest' i st h1 h2 h3]

/-- Witness for C1 at a concrete one-page document. -/
theorem c1_witness :
    (triage_go defaultConfig 1 [⟨"", false, .ok (some "abcdefghijklmnopqrst")⟩]
        0 initTriageState).2.1 = "" ∧
    (triage_go defaultConfig 1 [⟨"", false, .ok (some "abcdefghijklmnopqrst")⟩]
        0 initTriageState).2.2.reason =
      some ("page_" ++ toString 0 ++ "_ocr_chars_found") ∧
    (triage_go defaultConfig 1 [⟨"", false, .ok (some "abcdefghijklmnopqrst")⟩]
        0 initTriageState).1 = "single_page_pdf" := by
  obtain ⟨ha, hb, hc, hd, he⟩ :=
    c1_triage_ocr_found_fail_fast defaultConfig 1
      ⟨"", false, .ok (some "abcdefghijklmnopqrst")⟩ [] 0 initTriageState
      (by decide) (by decide) (by decide)
  refine ⟨ha, hb, ?_⟩
  rw [hd]
  decide

/-- Claim C2: on a document that opens, the returned classification is the
exit rule (1 page → single_page_pdf, else images among the scanned pages →
multipage_pdf_with_images, else multipage_pdf_text_only) applied to the page
count and the scanned prefix; in particular every 1-page document classifies
single_page_pdf. -/
theorem c2_classification_rule (cfg : TriageConfig) (pages : List PdfPage) :
    (triage_pdf_fail_fast cfg (.ok pages)).1 =
      classifyTriage pages.length
        ((pages.take (triage_pdf_fail_fast cfg (.ok pages)).2.2.pages_scanned).any
          (fun p => p.has_images)) ∧
    (pages.length = 1 →
      (triage_pdf_fail_fast cfg (.ok pages)).1 = "single_page_pdf") := by
  obtain ⟨k, hk, hsc, hcl⟩ :=
    triage_go_class cfg pages.length pages 0 initTriageState
  simp only [triage_pdf_fail_fast]
  constructor
  · rw [hcl, hsc]
    simp [initTriageState]
  · intro h1
    rw [hcl, h1]
    simp [classifyTriage]

/-- Witness for C2 at a concrete 1-page document with an image and no text. -/
theorem c2_witness :
    (triage_pdf_fail_fast defaultConfig (.ok [⟨"x", true, .ok none⟩])).1 =
      "single_page_pdf" := by
  exact (c2_classification_rule defaultConfig [⟨"x", true, .ok none⟩]).2 (by decide)

/-- Claim C3: pages_ocr_checked never exceeds the sampling budget, and a
low-text page hit when the budget is exhausted fail-fast-stops with empty
text, reason "page_i_low_text_ocr_limit_exceeded", an unchanged OCR counter,
classification from the pages seen so far, independent of the later pages. -/
theorem c3_ocr_budget (cfg : TriageConfig) :
    (∀ doc, (triage_pdf_fail_fast cfg doc).2.2.pages_ocr_checked ≤
        cfg.ocr_max_pages_to_check) ∧
    (∀ tp (page : PdfPage) rest i (st : TriageState),
      (pyStrip page.native_text).length < cfg.page_text_threshold →
      ¬ st.ocr_checked < cfg.ocr_max_pages_to_check →
      (triage_go cfg tp (page :: rest) i st).2.1 = "" ∧
      (triage_go cfg tp (page :: rest) i st).2.2.reason =
        some ("page_" ++ toString i ++ "_low_text_ocr_limit_exceeded") ∧
      (triage_go cfg tp (page :: rest) i st).2.2.pages_ocr_checked = st.ocr_checked ∧
      (triage_go cfg tp (page :: rest) i st).1 =
        classifyTriage tp (st.has_images || page.has_images) ∧
      (∀ rest', triage_go cfg tp (page :: rest') i st =
        triage_go cfg tp (page :: rest) i st)) := by
  constructor
  · intro doc
    match doc with
    | .error e => simp [triage_pdf_fail_fast]
    | .ok pages =>
        simp only [triage_pdf_fail_fast]
        exact triage_go_ocr_le cfg pages.length pages 0 initTriageState (by simp [initTriageState])
  · intro tp page rest i st h1 h2
    have e := triage_go_step_limit cfg tp page rest i st h1 h2
    refine ⟨?_, ?_, ?_, ?_, ?_⟩
    · rw [e]
    · rw [e]; simp [mkTriageDebug]
    · rw [e]; simp [mkTriageDebug, recordPage_ocr_checked]
    · rw [e]; simp [recordPage_has_images]
    · intro rest'
      rw [e, triage_go_step_limit cfg tp page rest' i st h1 h2]

/-- Witness for C3: budget bound on a concrete run, and the limit-exceeded
exit at a concrete state with the budget already used up. -/
theorem c3_witness :
    (triage_pdf_fail_fast defaultConfig
        (.ok [⟨"", false, .ok (some "hello")⟩])).2.2.pages_ocr_checked ≤ 10 ∧
    (triage_go defaultConfig 1 [⟨"", false, .ok none⟩] 0
        ⟨[], 0, 10, 0, false, []⟩).2.2.reason =
      some ("page_" ++ toString 0 ++ "_low_text_ocr_limit_exceeded") := by
  refine ⟨(c3_ocr_budget defaultConfig).1 _, ?_⟩
  exact ((c3_ocr_budget defaultConfig).2 1 ⟨"", false, .ok none⟩ [] 0
    ⟨[], 0, 10, 0, false, []⟩ (by decide) (by decide)).2.1

/-- Claim C9: a per-page OCR engine failure is swallowed (treated as the
empty OCR result) and never aborts the pass — on a document that opens,
triage never classifies "error" and the force pass only returns "processed"
or "ocr_failed" — while a failure to open the document escalates to the
whole-operation "error" result in both passes. -/
theorem c9_ocr_failure_isolation :
    (∀ (page : PdfPage) msg, page.ocr = .error msg → quick_ocr_on_image page = "") ∧
    (∀ cfg (pages : List PdfPage), (triage_pdf_fail_fast cfg (.ok pages)).1 ≠ "error") ∧
    (∀ cfg (pages : List PdfPage),
      (process_pdf_force_ocr cfg (.ok pages)).1 = "processed" ∨
      (process_pdf_force_ocr cfg (.ok pages)).1 = "ocr_failed") ∧
    (∀ cfg e, triage_pdf_fail_fast cfg (.error e) =
      ("error", "", ⟨0, 0, 0, 0, none, none, some e⟩)) ∧
    (∀ cfg e, process_pdf_force_ocr cfg (.error e) =
      ("error", "", ⟨0, 0, 0, some e⟩)) := by
  refine ⟨?_, ?_, ?_, ?_, ?_⟩
  · intro page msg h
    simp [quick_ocr_on_image, h]
  · intro cfg pages
    obtain ⟨k, hk, hsc, hcl⟩ :=
      triage_go_class cfg pages.length pages 0 initTriageState
    simp only [triage_pdf_fail_fast]
    rw [hcl]
    exact classifyTriage_ne_error _ _
  · intro cfg pages
    rw [process_force_eq]
    split
    · left; rfl
    · right; rfl
  · intro cfg e; rfl
  · intro cfg e; rfl

/-- Witness for C9 at a concrete failing OCR engine. -/
theorem c9_witness :
    quick_ocr_on_image ⟨"t", false, .error "boom"⟩ = "" ∧
    (triage_pdf_fail_fast defaultConfig (.ok [⟨"t", false, .error "boom"⟩])).1 ≠
      "error" := by
  exact ⟨c9_ocr_failure_isolation.1 ⟨"t", false, .error "boom"⟩ "boom" rfl,
         c9_ocr_failure_isolation.2.1 defaultConfig [⟨"t", false, .error "boom"⟩]⟩

/-- Counterexample to claim C4 as stated: a 1-page document with no native
text whose OCR yields a single space.  The accumulated final text " " is
non-empty, yet the status is "ocr_failed", not "processed" — the code tests
the final text stripped, not for mere non-emptiness. -/
theorem c4_counterexample :
    (force_go defaultConfig [⟨"", false, .ok (some " ")⟩] [] 0 0).1 = [" "] ∧
    String.intercalate "\n\n" [" "] ≠ "" ∧
    process_pdf_force_ocr defaultConfig (.ok [⟨"", false, .ok (some " ")⟩]) =
      ("ocr_failed", "", ⟨1, 1, 1, none⟩) := by
  refine ⟨by decide, by decide, by decide⟩

/-- Claim C4 (amended): the force pass on a document that opens visits every
page with no early exit, accumulates per page the native text when long
enough and otherwise the OCR text with native-text fallback when the OCR
result is empty, joins the contributions blank-line separated, and returns
"processed" exactly when the joined text is non-empty after stripping
("ocr_failed" otherwise, including when the joined text is whitespace-only);
an open failure returns "error". -/
theorem c4_force_ocr_amended :
    (∀ cfg (pages : List PdfPage),
      process_pdf_force_ocr cfg (.ok pages) =
        (if pyStrip (String.intercalate "\n\n"
              (pages.flatMap (forcePageTexts cfg))) ≠ "" then
          ("processed",
           String.intercalate "\n\n" (pages.flatMap (forcePageTexts cfg)),
           (⟨pages.length, countLowText cfg pages, pages.length, none⟩ : ForceDebug))
        else
          ("ocr_failed", "",
           (⟨pages.length, countLowText cfg pages, pages.length, none⟩ : ForceDebug)))) ∧
    (∀ cfg (pages : List PdfPage),
      (process_pdf_force_ocr cfg (.ok pages)).2.2.pages_scanned = pages.length) ∧
    (∀ cfg e, process_pdf_force_ocr cfg (.error e) =
      ("error", "", ⟨0, 0, 0, some e⟩)) := by
  refine ⟨?_, ?_, ?_⟩
  · intro cfg pages
    exact process_force_eq cfg pages
  · intro cfg pages
    rw [process_force_eq]
    split <;> rfl
  · intro cfg e; rfl

/-! ## Non-emptiness helpers for entry paths -/

lemma pyLower_data_nil (s : String) (h : s.data = []) : (pyLower s).data = [] := by
  simp [pyLower, h]

lemma data_ne_nil_of_ext (s suf : String) (hsuf : suf.data ≠ [])
    (h : strEndsWith (pyLower s) suf = true) : s.data ≠ [] := by
  intro hnil
  simp only [strEndsWith] at h
  have hsfx := List.isSuffixOf_iff_suffix.mp h
  rw [pyLower_data_nil s hnil] at hsfx
  exact hsuf (List.suffix_nil.mp hsfx)

lemma entryPath_data_ne_nil (cp name : String) (h : name.data ≠ []) :
    (entryPath cp name).data ≠ [] := by
  unfold entryPath ospath_join
  split
  · exact h
  · split
    · exact h
    · split
      · rw [String.data_append]
        intro hx
        exact h (List.append_eq_nil.mp hx).2
      · rw [String.data_append, String.data_append]
        intro hx
        exact h (List.append_eq_nil.mp hx).2

lemma entryPath_ne_empty (cp name : String) (h : name.data ≠ []) :
    entryPath cp name ≠ "" := by
  intro heq
  exact entryPath_data_ne_nil cp name h (by rw [heq])

/-- Claim C5: at nested-entry detection time the filename extension decides
first — a lowered name ending in .zip always yields (true, zip) whatever the
contents (including absent contents), one ending in .rar always yields
(true, rar) — and only without a recognized extension are the content
signatures consulted: PK 03 04 / PK 05 06 give zip, Rar! 1a 07 gives rar,
anything else is not an archive. -/
theorem c5_archive_detection_precedence (filename : String) (contents : Option Bytes) :
    (strEndsWith (pyLower filename) ".zip" = true →
      is_archive_file filename contents = (true, "zip")) ∧
    (strEndsWith (pyLower filename) ".rar" = true →
      is_archive_file filename contents = (true, "rar")) ∧
    (strEndsWith (pyLower filename) ".zip" = false →
     strEndsWith (pyLower filename) ".rar" = false →
      (∀ c, contents = some c →
        ((zipSig34.isPrefixOf c || zipSig56.isPrefixOf c) = true →
          is_archive_file filename contents = (true, "zip")) ∧
        (rarSig.isPrefixOf c = true →
          is_archive_file filename contents = (true, "rar")) ∧
        (zipSig34.isPrefixOf c = false → zipSig56.isPrefixOf c = false →
          rarSig.isPrefixOf c = false →
          is_archive_file filename contents = (false, ""))) ∧
      (contents = none → is_archive_file filename contents = (false, ""))) := by
  refine ⟨fun h => is_archive_zip_ext filename contents h,
          fun h => is_archive_rar_ext filename contents h,
          fun hz hr => ⟨fun c hc => ?_, fun hc => ?_⟩⟩
  · subst hc
    exact ⟨fun h => is_archive_sig_zip filename c hz hr h,
           fun h => is_archive_sig_rar filename c hz hr h,
           fun h34 h56 hrs => is_archive_no_sig filename c hz hr h34 h56 hrs⟩
  · subst hc
    exact is_archive_no_contents filename hz hr

/-- Witness for C5 over the six detection cases at concrete inputs. -/
theorem c5_witness :
    is_archive_file "A.Zip" none = (true, "zip") ∧
    is_archive_file "B.RAR" (some []) = (true, "rar") ∧
    is_archive_file "x.bin" (some [80, 75, 3, 4, 9]) = (true, "zip") ∧
    is_archive_file "x.bin" (some [82, 97, 114, 33, 26, 7, 1]) = (true, "rar") ∧
    is_archive_file "x.bin" (some [1, 2]) = (false, "") ∧
    is_archive_file "x.bin" none = (false, "") := by
  refine ⟨(c5_archive_detection_precedence "A.Zip" none).1 (by decide),
          (c5_archive_detection_precedence "B.RAR" (some [])).2.1 (by decide),
          (((c5_archive_detection_precedence "x.bin" (some [80, 75, 3, 4, 9])).2.2
              (by decide) (by decide)).1 _ rfl).1 (by decide),
          (((c5_archive_detection_precedence "x.bin"
              (some [82, 97, 114, 33, 26, 7, 1])).2.2
              (by decide) (by decide)).1 _ rfl).2.1 (by decide),
          (((c5_archive_detection_precedence "x.bin" (some [1, 2])).2.2
              (by decide) (by decide)).1 _ rfl).2.2 (by decide) (by decide) (by decide),
          ((c5_archive_detection_precedence "x.bin" none).2.2
              (by decide) (by decide)).2 rfl⟩

/-- Counterexample to claim C6 as stated: a depth-exceeded call with empty
currentPath is tagged with the empty string, not with "root" — the "root"
fallback exists only on the container-open-failure path. -/
theorem c6_counterexample :
    extract_archive_recursive ⟨fun _ _ => .ok []⟩ 10 [] "zip" "" 11 =
      [⟨"", none, none, none, "error",
        some "Profundidade máxima de recursão atingida (10)"⟩] ∧
    ("" : String) ≠ "root" := by
  constructor
  · rw [extract_depth_exceeded ⟨fun _ _ => .ok []⟩ 10 [] "zip" "" 11 (by decide)]
    decide
  · decide

/-- Claim C6 (amended): a call with depth strictly above maxRecursionDepth
returns exactly one error entry whose filename is currentPath as given (with
no "root" substitution at this exit), whose message reports the maximum
recursion depth, and nothing from inside the container. -/
theorem c6_depth_guard_amended (env : ArchiveEnv) (maxDepth : Nat)
    (contents : Bytes) (archive_type current_path : String) (depth : Nat)
    (h : maxDepth < depth) :
    extract_archive_recursive env maxDepth contents archive_type current_path depth =
      [⟨current_path, none, none, none, "error",
        some ("Profundidade máxima de recursão atingida ("
          ++ toString maxDepth ++ ")")⟩] := by
  rw [extract_depth_exceeded env maxDepth contents archive_type current_path depth h]
  rfl

/-- Witness for C6 at a concrete over-deep call. -/
theorem c6_witness :
    extract_archive_recursive ⟨fun _ _ => .ok []⟩ 10 [] "zip" "q" 11 =
      [⟨"q", none, none, none, "error",
        some "Profundidade máxima de recursão atingida (10)"⟩] := by
  rw [c6_depth_guard_amended ⟨fun _ _ => .ok []⟩ 10 [] "zip" "q" 11 (by decide)]
  decide

/-- Claim C7: failures stay inside their boundary — an entry whose read
raises becomes exactly one error entry (name, path, size, message) while the
remaining siblings are still walked, and a container whose open raises
becomes a single error entry for currentPath (or "root") instead of a
propagated exception. -/
theorem c7_failure_isolation :
    (∀ (env : ArchiveEnv) maxDepth cp d (e : RawEntry) rest msg,
      e.is_dir = false → e.read_result = .error msg →
      walkEntries env maxDepth cp d (e :: rest) =
        readErrorEntry e (entryPath cp e.filename) msg
          :: walkEntries env maxDepth cp d rest) ∧
    (∀ (env : ArchiveEnv) maxDepth c t cp d msg,
      ¬ maxDepth < d → (t = "zip" ∨ t = "rar") →
      env.openArchive t c = .error msg →
      extract_archive_recursive env maxDepth c t cp d = [openErrorEntry cp msg]) := by
  constructor
  · intro env maxDepth cp d e rest msg hd hr
    rw [walkEntries_cons, entryResult_read_error env maxDepth cp d e msg hd hr,
        List.singleton_append]
  · intro env maxDepth c t cp d msg h ht he
    exact extract_open_error env maxDepth c t cp d msg h ht he

/-- Witness for C7 at a concrete unreadable entry and a concrete unopenable
container. -/
theorem c7_witness :
    walkEntries ⟨fun _ _ => .error "cant open"⟩ 10 "" 0
        [⟨"a.txt", false, 2, .error "bad entry"⟩] =
      readErrorEntry ⟨"a.txt", false, 2, .error "bad entry"⟩
          (entryPath "" "a.txt") "bad entry"
        :: walkEntries ⟨fun _ _ => .error "cant open"⟩ 10 "" 0 [] ∧
    extract_archive_recursive ⟨fun _ _ => .error "cant open"⟩ 10 [] "zip" "" 0 =
      [openErrorEntry "" "cant open"] := by
  exact ⟨c7_failure_isolation.1 ⟨fun _ _ => .error "cant open"⟩ 10 "" 0
           ⟨"a.txt", false, 2, .error "bad entry"⟩ [] "bad entry" rfl rfl,
         c7_failure_isolation.2 ⟨fun _ _ => .error "cant open"⟩ 10 [] "zip" "" 0
           "cant open" (by decide) (Or.inl rfl) rfl⟩

/-- Counterexample to claim C8 as stated: a container listing the same name
twice produces two flattened leaves with the same pathInArchive, so
uniqueness of pathInArchive among leaves fails. -/
theorem c8_counterexample :
    extract_archive_recursive dupEnv 10 [9] "zip" "" 0 =
      [⟨"a.txt", some "a.txt", some 2, some [104, 105], "extracted", none⟩,
       ⟨"a.txt", some "a.txt", some 2, some [104, 105], "extracted", none⟩] ∧
    ¬ List.Pairwise (fun a b => a.path_in_archive ≠ b.path_in_archive)
        (extract_archive_recursive dupEnv 10 [9] "zip" "" 0) := by
  have h : extract_archive_recursive dupEnv 10 [9] "zip" "" 0 =
      [⟨"a.txt", some "a.txt", some 2, some [104, 105], "extracted", none⟩,
       ⟨"a.txt", some "a.txt", some 2, some [104, 105], "extracted", none⟩] := by
    rw [extract_opened dupEnv 10 [9] "zip" "" 0
          [⟨"a.txt", false, 2, .ok [104, 105]⟩, ⟨"a.txt", false, 2, .ok [104, 105]⟩]
          (by decide) (Or.inl rfl) rfl,
        walkEntries_cons, walkEntries_cons, walkEntries_nil,
        entryResult_plain dupEnv 10 "" 0 ⟨"a.txt", false, 2, .ok [104, 105]⟩
          [104, 105] rfl rfl (by decide)]
    decide
  refine ⟨h, ?_⟩
  rw [h]
  decide

/-- Claim C8 (amended): the walker's output is pre-order — the flattened
block of each listed entry appears contiguously, in listing order, at the
position that entry occupied; each plain leaf's pathInArchive is the parent
path joined (os.path.join) with the entry's own name; and in the concrete
two-level example, b.txt inside inner.zip inside the outer container gets
pathInArchive "inner.zip/b.txt".  (Uniqueness of pathInArchive among leaves
is dropped: duplicate entry names yield duplicate paths.) -/
theorem c8_path_preorder_amended :
    (∀ (env : ArchiveEnv) maxDepth cp d (l : List RawEntry),
      walkEntries env maxDepth cp d l =
        (l.map (entryResult env maxDepth cp d)).flatten) ∧
    (∀ (env : ArchiveEnv) maxDepth cp d (e : RawEntry) b,
      e.is_dir = false → e.read_result = .ok b →
      (is_archive_file e.filename (some b)).1 = false →
      entryResult env maxDepth cp d e =
        [⟨basename e.filename, some (entryPath cp e.filename), some e.file_size,
          some b, "extracted", none⟩]) ∧
    extract_archive_recursive nestEnv 10 [0] "zip" "" 0 =
      [⟨"b.txt", some "inner.zip/b.txt", some 3, some [7, 7, 7],
        "extracted", none⟩] := by
  refine ⟨fun env maxDepth cp d l => walkEntries_eq_flatten env maxDepth cp d l,
          fun env maxDepth cp d e b hd hb ha => ?_, ?_⟩
  · rw [entryResult_plain env maxDepth cp d e b hd hb ha]
    rfl
  · rw [extract_opened nestEnv 10 [0] "zip" "" 0 [⟨"inner.zip", false, 5, .ok [1]⟩]
          (by decide) (Or.inl rfl) rfl,
        walkEntries_cons, walkEntries_nil,
        entryResult_nested nestEnv 10 "" 0 ⟨"inner.zip", false, 5, .ok [1]⟩ [1] "zip"
          rfl rfl (by decide),
        extract_opened nestEnv 10 [1] "zip" (entryPath "" "inner.zip") 1
          [⟨"b.txt", false, 3, .ok [7, 7, 7]⟩] (by decide) (Or.inl rfl) rfl,
        walkEntries_cons, walkEntries_nil,
        entryResult_plain nestEnv 10 (entryPath "" "inner.zip") 1
          ⟨"b.txt", false, 3, .ok [7, 7, 7]⟩ [7, 7, 7] rfl rfl (by decide)]
    decide

/-- Witness for C8's leaf-path law at a concrete plain entry. -/
theorem c8_witness :
    entryResult ⟨fun _ _ => .error "x"⟩ 10 "" 0 ⟨"n.txt", false, 4, .ok [1, 2]⟩ =
      [⟨"n.txt", some "n.txt", some 4, some [1, 2], "extracted", none⟩] := by
  rw [c8_path_preorder_amended.2.1 ⟨fun _ _ => .error "x"⟩ 10 "" 0
        ⟨"n.txt", false, 4, .ok [1, 2]⟩ [1, 2] rfl rfl (by decide)]
  decide

/-- Claim C10: an entry whose (lowered) name ends in .zip or .rar is never
emitted as an extracted leaf with its raw bytes; the walker always recurses
into it as a nested archive, and when those bytes cannot actually be opened
as a container (or the depth guard fires) the entry surfaces as a single
error entry tagged with its path. -/
theorem c10_nested_archive_always_recursed (env : ArchiveEnv) (maxDepth : Nat)
    (cp : String) (d : Nat) (e : RawEntry) (b : Bytes)
    (hd : e.is_dir = false) (hb : e.read_result = .ok b)
    (hext : strEndsWith (pyLower e.filename) ".zip" = true ∨
            strEndsWith (pyLower e.filename) ".rar" = true) :
    ∃ t, (t = "zip" ∨ t = "rar") ∧
      is_archive_file e.filename (some b) = (true, t) ∧
      entryResult env maxDepth cp d e =
        extract_archive_recursive env maxDepth b t (entryPath cp e.filename) (d + 1) ∧
      (∀ msg, env.openArchive t b = .error msg →
        ∃ emsg, entryResult env maxDepth cp d e =
          [⟨entryPath cp e.filename, none, none, none, "error", some emsg⟩]) := by
  have hne : entryPath cp e.filename ≠ "" := by
    apply entryPath_ne_empty
    rcases hext with hz | hr
    · exact data_ne_nil_of_ext e.filename ".zip" (by decide) hz
    · exact data_ne_nil_of_ext e.filename ".rar" (by decide) hr
  have main : ∀ t, is_archive_file e.filename (some b) = (true, t) →
      (t = "zip" ∨ t = "rar") →
      entryResult env maxDepth cp d e =
        extract_archive_recursive env maxDepth b t (entryPath cp e.filename) (d + 1) ∧
      (∀ msg, env.openArchive t b = .error msg →
        ∃ emsg, entryResult env maxDepth cp d e =
          [⟨entryPath cp e.filename, none, none, none, "error", some emsg⟩]) := by
    intro t ha ht
    have hrec := entryResult_nested env maxDepth cp d e b t hd hb ha
    refine ⟨hrec, fun msg hmsg => ?_⟩
    by_cases hdep : maxDepth < d + 1
    · refine ⟨"Profundidade máxima de recursão atingida ("
        ++ toString maxDepth ++ ")", ?_⟩
      rw [hrec, extract_depth_exceeded env maxDepth b t (entryPath cp e.filename)
            (d + 1) hdep]
      rfl
    · refine ⟨"Erro ao extrair arquivo: " ++ msg, ?_⟩
      rw [hrec, extract_open_error env maxDepth b t (entryPath cp e.filename)
            (d + 1) msg hdep ht hmsg]
      simp [openErrorEntry, hne]
  rcases hext with hz | hr
  · exact ⟨"zip", Or.inl rfl, is_archive_zip_ext e.filename (some b) hz,
      main "zip" (is_archive_zip_ext e.filename (some b) hz) (Or.inl rfl)⟩
  · exact ⟨"rar", Or.inr rfl, is_archive_rar_ext e.filename (some b) hr,
      main "rar" (is_archive_rar_ext e.filename (some b) hr) (Or.inr rfl)⟩

/-- Witness for C10 at a concrete .zip-named entry whose bytes cannot be
opened as a container. -/
theorem c10_witness :
    entryResult ⟨fun _ _ => .error "nope"⟩ 10 "" 0 ⟨"x.zip", false, 9, .ok [1]⟩ =
      [⟨"x.zip", none, none, none, "error",
        some "Erro ao extrair arquivo: nope"⟩] := by
  obtain ⟨t, ht, ha, hrec, herr⟩ :=
    c10_nested_archive_always_recursed ⟨fun _ _ => .error "nope"⟩ 10 "" 0
      ⟨"x.zip", false, 9, .ok [1]⟩ [1] rfl rfl (Or.inl (by decide))
  have hcomp : is_archive_file "x.zip" (some [1]) = (true, "zip") := by decide
  rw [ha] at hcomp
  have htz : t = "zip" := by
    have := congrArg Prod.snd hcomp
    simpa using this
  subst htz
  rw [hrec, extract_open_error ⟨fun _ _ => .error "nope"⟩ 10 [1] "zip"
        (entryPath "" "x.zip") 1 "nope" (by decide) (Or.inl rfl) rfl]
  decide
